import Mathlib

/-!
Shallow embedding of the server-streaming generation proxy of this
repository.  Three handler variants exist in the source:
`src/api/proxy.ts`, `src/api/proxy.js` and the unnamed variant
`src/unnamed/part_003` (a second `/api/proxy.js`).  All three share the
`sendEvent` helper and the `onQueueUpdate` progress callback verbatim;
they differ in how header setup, the credential check and the prompt
check are guarded, and in the textual content of error payloads.

The response object (`res`) is modelled as an explicit state record:
`writableEnded` is the flag the code consults before every write,
`out` is the raw byte stream written so far, `events` is the abstract
list of (event name, JSON payload) pairs produced by `sendEvent`, and
`endCalls` counts how many times `res.end()` was actually invoked.
A client disconnect is modelled as the connection-already-closed signal
`writableEnded = true`, which is exactly the signal `sendEvent` checks.
-/

/- JSON values, the payloads carried by server-sent events.  The
array and object children are given by the two auxiliary types below
(plain inductive lists) so that all recursion over JSON values is
ordinary structural recursion. -/
mutual

/-- A JSON value. -/
inductive Json where
  | null : Json
  | bool (b : Bool) : Json
  | num (n : Int) : Json
  | str (s : String) : Json
  | arr (elems : JsonList) : Json
  | obj (fields : JsonFields) : Json

inductive JsonList where
  | nil : JsonList
  | cons (hd : Json) (tl : JsonList) : JsonList

inductive JsonFields where
  | nil : JsonFields
  | cons (k : String) (v : Json) (tl : JsonFields) : JsonFields

end

/-- Escaping of one character inside a JSON string literal, as
`JSON.stringify` does for the characters that occur in this system. -/
def escChar (c : Char) : String :=
  if c == '"' then ("\\\"")
  else if c == '\\' then ("\\\\")
  else if c == '\n' then ("\\n")
  else if c == '\t' then ("\\t")
  else if c == '\r' then ("\\r")
  else c.toString

/-- A JSON string literal: quotes around the escaped characters. -/
def jsonStr (s : String) : String :=
  "\"" ++ String.join (s.toList.map escChar) ++ "\""

/- Serialisation of a JSON value, modelling platform `JSON.stringify`:
`Json.stringify` renders one value, `stringifyElems` the
comma-separated members of an array, `stringifyFields` the
comma-separated key:value members of an object. -/
mutual

/-- Serialisation of one JSON value. -/
def Json.stringify : Json → String
  | Json.null => "null"
  | Json.bool b => if b then ("true") else ("false")
  | Json.num n => toString n
  | Json.str s => jsonStr s
  | Json.arr elems => "[" ++ stringifyElems elems ++ "]"
  | Json.obj fields => "\x7b" ++ stringifyFields fields ++ "\x7d"

def stringifyElems : JsonList → String
  | JsonList.nil => ""
  | JsonList.cons j tl =>
      Json.stringify j ++
        (match tl with
         | JsonList.nil => ""
         | JsonList.cons _ _ => ",") ++ stringifyElems tl

def stringifyFields : JsonFields → String
  | JsonFields.nil => ""
  | JsonFields.cons k v tl =>
      jsonStr k ++ ":" ++ Json.stringify v ++
        (match tl with
         | JsonFields.nil => ""
         | JsonFields.cons _ _ _ => ",") ++ stringifyFields tl

end

/-- A one-field JSON object. -/
def jobj1 (k : String) (v : Json) : Json :=
  Json.obj (JsonFields.cons k v JsonFields.nil)

/-- A two-field JSON object. -/
def jobj2 (k1 : String) (v1 : Json) (k2 : String) (v2 : Json) : Json :=
  Json.obj (JsonFields.cons k1 v1 (JsonFields.cons k2 v2 JsonFields.nil))

/-- JavaScript values that can appear in the payload handed to the
upstream client: query-string values are strings, and the `parseInt`
coercion produces either an integer or `NaN`. -/
inductive JsValue where
  | str (s : String) : JsValue
  | num (n : Int) : JsValue
  | nan : JsValue
deriving DecidableEq

/-- JavaScript truthiness of the values above: the empty string, zero
and `NaN` are falsy. -/
def jsTruthy : JsValue → Bool
  | JsValue.str s => !(s == "")
  | JsValue.num n => !(n == 0)
  | JsValue.nan => false

/-- String coercion of a value, as when it is passed to `parseInt`. -/
def jsToString : JsValue → String
  | JsValue.str s => s
  | JsValue.num n => toString n
  | JsValue.nan => "NaN"

/-- Value of a list of decimal digits. -/
def digitsToNat (cs : List Char) : Nat :=
  cs.foldl (fun acc c => acc * 10 + (c.toNat - 48)) 0

/-- Model of JavaScript `parseInt(s, 10)`: skip leading whitespace, an
optional sign, then read the maximal run of leading decimal digits; if
that run is empty the result is `NaN`. -/
def parseInt10 (s : String) : JsValue :=
  let cs := s.toList.dropWhile Char.isWhitespace
  match cs with
  | '-' :: rest =>
      let ds := rest.takeWhile Char.isDigit
      if ds.isEmpty then JsValue.nan else JsValue.num (-(digitsToNat ds : Int))
  | '+' :: rest =>
      let ds := rest.takeWhile Char.isDigit
      if ds.isEmpty then JsValue.nan else JsValue.num ((digitsToNat ds : Int))
  | _ =>
      let ds := cs.takeWhile Char.isDigit
      if ds.isEmpty then JsValue.nan else JsValue.num ((digitsToNat ds : Int))

example : parseInt10 ("42") = JsValue.num 42 := by decide
example : parseInt10 ("abc") = JsValue.nan := by decide
example : parseInt10 ("12abc") = JsValue.num 12 := by decide
example : parseInt10 ("-7") = JsValue.num (-7) := by decide

/-- Names of the server-sent events and of the query keys used by the
handlers (`src/api/proxy.ts` lines 44-64 and the same lines of the
other variants). -/
def statusName : String := "status"

/-- Event name of a log line. -/
def logName : String := "log"

/-- Event name of the successful terminal event. -/
def resultName : String := "result"

/-- Event name of the failing terminal event. -/
def errorName : String := "error"

/-- Query key of the required prompt parameter. -/
def promptKey : String := "prompt"

/-- Query key of the optional seed parameter. -/
def seedKey : String := "seed"

/-- Query key of the optional image-count parameter. -/
def numImagesKey : String := "num_images"

/-- The upstream status string that makes the callback forward logs. -/
def inProgressStatus : String := "IN_PROGRESS"

/-- The response object, the explicit state of the client connection.
`writableEnded` is `res.writableEnded`, `out` the raw bytes written to
the stream, `events` the abstract (name, payload) trace of `sendEvent`,
`endCalls` the number of times `res.end()` was invoked, `headers` and
`headersFlushed` the header state. -/
structure Res where
  writableEnded : Bool
  headers : List (String × String)
  headersFlushed : Bool
  out : String
  events : List (String × Json)
  endCalls : Nat

/-- The fresh response state at the start of a request. -/
def Res.start : Res :=
  { writableEnded := false, headers := [], headersFlushed := false,
    out := "", events := [], endCalls := 0 }

/-- The bytes one event contributes to the stream: an `event:` line and
a `data:` line with the JSON-encoded payload, then a blank line. -/
def eventWire (eventName : String) (data : Json) : String :=
  "event: " ++ eventName ++ "\n" ++ "data: " ++ Json.stringify data ++ "\n\n"

/-- `sendEvent` from all three proxy variants: write the two lines of
the event only when the response has not already ended. -/
def sendEvent (res : Res) (eventName : String) (data : Json) : Res :=
  if res.writableEnded then res
  else
    { res with
      out := res.out ++ eventWire eventName data,
      events := res.events ++ [(eventName, data)] }

/-- `res.setHeader(k, v)`. -/
def setHeader (res : Res) (k v : String) : Res :=
  { res with headers := res.headers ++ [(k, v)] }

/-- `res.flushHeaders()`. -/
def flushHeaders (res : Res) : Res :=
  { res with headersFlushed := true }

/-- `res.end()`: the connection is closed and the close is recorded. -/
def resEnd (res : Res) : Res :=
  { res with writableEnded := true, endCalls := res.endCalls + 1 }

/-- The close path of the `finally` blocks:
`if (!res.writableEnded) res.end()`. -/
def closeConn (res : Res) : Res :=
  if res.writableEnded then res else resEnd res

/-- The inbound request: its query string as key-value pairs. -/
structure Request where
  query : List (String × String)
deriving DecidableEq

/-- Lookup of one query parameter (`req.query.prompt` and friends). -/
def Request.get (req : Request) (k : String) : Option String :=
  match req.query.find? (fun p => p.1 == k) with
  | some p => some p.2
  | none => none

/-- The rest-object of the destructuring `\x7b prompt, ...restOfInput \x7d`:
every query pair whose key is not `k`. -/
def Request.rest (req : Request) (k : String) : List (String × String) :=
  req.query.filter (fun p => !(p.1 == k))

/-- Server-side environment: the optional `FAL_KEY` credential. -/
structure Env where
  falKey : Option String
deriving DecidableEq

/-- Truthiness of `process.env.FAL_KEY`: present and non-empty
(`if (!apiKey)` fails on `undefined` and on the empty string). -/
def Env.keyOk (env : Env) : Bool :=
  match env.falKey with
  | some k => !(k == "")
  | none => false

/-- One log entry of an upstream queue update. -/
structure LogEntry where
  message : String
deriving DecidableEq

/-- One firing of the upstream progress callback: a status string and,
when the update carries them, a list of log entries (`none` models a
missing `update.logs`; `some []` an empty but present array, which is
truthy in JavaScript). -/
structure QueueUpdate where
  status : String
  logs : Option (List LogEntry)
deriving DecidableEq

/-- One behaviour of the upstream subscription: the queue updates the
progress callback observes, then either a resolved result payload or a
rejection carrying an error message. -/
structure Upstream where
  updates : List QueueUpdate
  outcome : Except String Json

/-- The JSON payload of a `status` event. -/
def statusPayload (s : String) : Json :=
  jobj1 statusName (Json.str s)

/-- The JSON payload of a `log` event. -/
def logPayload (l : LogEntry) : Json :=
  jobj1 ("message") (Json.str l.message)

/-- The `onQueueUpdate` callback, identical in all three variants:
always send one `status` event; when the status is `IN_PROGRESS` and
the update carries logs, send one `log` event per log entry, in order. -/
def onQueueUpdate (res : Res) (u : QueueUpdate) : Res :=
  let res1 := sendEvent res statusName (statusPayload u.status)
  if u.status == inProgressStatus then
    match u.logs with
    | some logs => logs.foldl (fun r l => sendEvent r logName (logPayload l)) res1
    | none => res1
  else res1

/-- The events one queue update contributes to the trace when the
connection is open. -/
def updateBlock (u : QueueUpdate) : List (String × Json) :=
  (statusName, statusPayload u.status) ::
    (if u.status == inProgressStatus then
      match u.logs with
      | some logs => logs.map (fun l => (logName, logPayload l))
      | none => []
    else [])

/-- The upstream input payload built by the handlers: the prompt first,
then every remaining query pair as a string value. -/
def buildInput (prompt : String) (rest : List (String × String)) :
    List (String × JsValue) :=
  (promptKey, JsValue.str prompt) :: rest.map (fun p => (p.1, JsValue.str p.2))

/-- Field lookup on a JavaScript object modelled as an association list. -/
def lookupField (input : List (String × JsValue)) (k : String) : Option JsValue :=
  match input.find? (fun p => p.1 == k) with
  | some p => some p.2
  | none => none

/-- Field assignment on a JavaScript object: replace the first binding
of `k` in place, or append the binding when `k` is absent. -/
def setField : List (String × JsValue) → String → JsValue → List (String × JsValue)
  | [], k, v => [(k, v)]
  | (k0, v0) :: rest, k, v =>
      if k0 == k then (k, v) :: rest else (k0, v0) :: setField rest k v

/-- The coercion `if (input.k) input.k = parseInt(input.k, 10)` applied
to one numeric field. -/
def coerceNumField (input : List (String × JsValue)) (k : String) :
    List (String × JsValue) :=
  match lookupField input k with
  | some v => if jsTruthy v then setField input k (parseInt10 (jsToString v)) else input
  | none => input

/-- The processed upstream input: build the object from the prompt and
the rest of the query, then coerce `seed` and `num_images`. -/
def processInput (prompt : String) (rest : List (String × String)) :
    List (String × JsValue) :=
  coerceNumField (coerceNumField (buildInput prompt rest) seedKey) numImagesKey

/-- Result of one handler run: the final response state and the list of
upstream calls made (each with the input payload it was given). -/
structure HResult where
  res : Res
  calls : List (List (String × JsValue))

/-- Error message of the `proxy.ts` (and `part_003`) credential check:
the message of the `Error` thrown when `FAL_KEY` is missing. -/
def tsKeyErrMsg : String := "FAL_KEY environment variable not found on server."

/-- Error message of the `proxy.ts` (and `part_003`) prompt check. -/
def tsPromptErrMsg : String := "A \x27prompt\x27 is required in the query parameters."

/-- Detail string used when header setup itself faults. -/
def headerFaultMsg : String := "header setup failed"

/-- The `error` payload of the `proxy.ts` catch block: a fixed message
plus the thrown details. -/
def tsErrorPayload (details : String) : Json :=
  jobj2 ("message") (Json.str ("A critical error occurred on the server."))
    ("details") (Json.str details)

/-- The `error` payload of the `part_003` catch block (same shape:
fixed message plus `error.message`). -/
def p3ErrorPayload (details : String) : Json :=
  jobj2 ("message") (Json.str ("A critical error occurred on the server."))
    ("details") (Json.str details)

/-- The `error` payload of the `proxy.js` credential check. -/
def jsKeyErrPayload : Json :=
  jobj1 ("message") (Json.str ("API key not configured on the server."))

/-- The `error` payload of the `proxy.js` prompt check. -/
def jsPromptErrPayload : Json :=
  jobj1 ("message") (Json.str ("A \x27prompt\x27 is required."))

/-- The `error` payload of the `proxy.js` catch block:
`error.message || \x27An unknown error occurred.\x27`. -/
def jsCatchPayload (msg : String) : Json :=
  jobj1 ("message")
    (Json.str (if msg == "" then "An unknown error occurred." else msg))

/-- Header setup of `proxy.ts` and `part_003`: four `setHeader` calls
then `flushHeaders`. -/
def tsSetup (res : Res) : Res :=
  flushHeaders
    (setHeader
      (setHeader
        (setHeader
          (setHeader res ("Access-Control-Allow-Origin") ("*"))
          ("Content-Type") ("text/event-stream"))
        ("Cache-Control") ("no-cache"))
      ("Connection") ("keep-alive"))

/-- Header setup of `proxy.js`: same, plus
`Access-Control-Allow-Methods: GET`. -/
def jsSetup (res : Res) : Res :=
  flushHeaders
    (setHeader
      (setHeader
        (setHeader
          (setHeader
            (setHeader res ("Access-Control-Allow-Origin") ("*"))
            ("Access-Control-Allow-Methods") ("GET"))
          ("Content-Type") ("text/event-stream"))
        ("Cache-Control") ("no-cache"))
      ("Connection") ("keep-alive"))

/-- The handler of `src/api/proxy.ts`.  The whole body sits in one
`try`/`catch`/`finally`: any throw (header fault, missing `FAL_KEY`,
missing `prompt`, upstream rejection) is caught, turned into one
`error` event, and the `finally` block closes the connection when it
is still open.  `hf` injects a fault into the first `setHeader` call
(which in this variant is inside the `try`).  The `Except.error` result
would mean a fault escaping the handler; this variant never produces
one.  `fal.config` only stores the credential and is not modelled. -/
def handlerTs (env : Env) (hf : Bool) (up : Upstream) (req : Request)
    (res0 : Res) : Except String HResult :=
  if hf then
    Except.ok ⟨closeConn (sendEvent res0 errorName (tsErrorPayload headerFaultMsg)), []⟩
  else
    let res1 := tsSetup res0
    if !env.keyOk then
      Except.ok ⟨closeConn (sendEvent res1 errorName (tsErrorPayload tsKeyErrMsg)), []⟩
    else
      match req.get promptKey with
      | none =>
          Except.ok ⟨closeConn (sendEvent res1 errorName (tsErrorPayload tsPromptErrMsg)), []⟩
      | some p =>
          if p == "" then
            Except.ok ⟨closeConn (sendEvent res1 errorName (tsErrorPayload tsPromptErrMsg)), []⟩
          else
            let input := processInput p (req.rest promptKey)
            let res2 := List.foldl onQueueUpdate res1 up.updates
            match up.outcome with
            | Except.ok payload =>
                Except.ok ⟨closeConn (sendEvent res2 resultName payload), [input]⟩
            | Except.error msg =>
                Except.ok ⟨closeConn (sendEvent res2 errorName (tsErrorPayload msg)), [input]⟩

/-- The handler of `src/api/proxy.js`.  Header setup, the credential
check and the prompt check run OUTSIDE any `try`: the two checks use
early `sendEvent` + `res.end()` + `return`, and only the upstream call
is wrapped in `try`/`catch`/`finally`.  A fault in header setup (`hf`)
therefore escapes the handler as `Except.error`. -/
def handlerJs (env : Env) (hf : Bool) (up : Upstream) (req : Request)
    (res0 : Res) : Except String HResult :=
  if hf then
    Except.error headerFaultMsg
  else
    let res1 := jsSetup res0
    if !env.keyOk then
      Except.ok ⟨resEnd (sendEvent res1 errorName jsKeyErrPayload), []⟩
    else
      match req.get promptKey with
      | none =>
          Except.ok ⟨resEnd (sendEvent res1 errorName jsPromptErrPayload), []⟩
      | some p =>
          if p == "" then
            Except.ok ⟨resEnd (sendEvent res1 errorName jsPromptErrPayload), []⟩
          else
            let input := processInput p (req.rest promptKey)
            let res2 := List.foldl onQueueUpdate res1 up.updates
            match up.outcome with
            | Except.ok payload =>
                Except.ok ⟨closeConn (sendEvent res2 resultName payload), [input]⟩
            | Except.error msg =>
                Except.ok ⟨closeConn (sendEvent res2 errorName (jsCatchPayload msg)), [input]⟩

/-- The handler of `src/unnamed/part_003` (the second `/api/proxy.js`):
structurally identical to `handlerTs` — one `try`/`catch`/`finally`
around the whole body, header setup inside the `try`. -/
def handlerP3 (env : Env) (hf : Bool) (up : Upstream) (req : Request)
    (res0 : Res) : Except String HResult :=
  if hf then
    Except.ok ⟨closeConn (sendEvent res0 errorName (p3ErrorPayload headerFaultMsg)), []⟩
  else
    let res1 := tsSetup res0
    if !env.keyOk then
      Except.ok ⟨closeConn (sendEvent res1 errorName (p3ErrorPayload tsKeyErrMsg)), []⟩
    else
      match req.get promptKey with
      | none =>
          Except.ok ⟨closeConn (sendEvent res1 errorName (p3ErrorPayload tsPromptErrMsg)), []⟩
      | some p =>
          if p == "" then
            Except.ok ⟨closeConn (sendEvent res1 errorName (p3ErrorPayload tsPromptErrMsg)), []⟩
          else
            let input := processInput p (req.rest promptKey)
            let res2 := List.foldl onQueueUpdate res1 up.updates
            match up.outcome with
            | Except.ok payload =>
                Except.ok ⟨closeConn (sendEvent res2 resultName payload), [input]⟩
            | Except.error msg =>
                Except.ok ⟨closeConn (sendEvent res2 errorName (p3ErrorPayload msg)), [input]⟩

/-- A terminal event name: `result` or `error`. -/
def isTerminalName (n : String) : Bool :=
  n == resultName || n == errorName

/-- Number of terminal events in a trace. -/
def terminalCount (evs : List (String × Json)) : Nat :=
  (evs.filter (fun e => isTerminalName e.1)).length

/-- The event-name trace of a run, forgetting payloads. -/
def eventNames (evs : List (String × Json)) : List String :=
  evs.map Prod.fst

/-- Name of the last event of a trace, when there is one. -/
def lastEventName (evs : List (String × Json)) : Option String :=
  evs.getLast?.map Prod.fst

/-- Raw bytes of a list of events. -/
def wireOf : List (String × Json) → String
  | [] => ""
  | e :: rest => eventWire e.1 e.2 ++ wireOf rest

/-- The `log` events of a list of log entries. -/
def logEventsOf (logs : List LogEntry) : List (String × Json) :=
  logs.map (fun l => (logName, logPayload l))

/-- The whole event block of a list of queue updates, in order. -/
def blocksOf (us : List QueueUpdate) : List (String × Json) :=
  us.flatMap updateBlock

theorem wireOf_append (a b : List (String × Json)) :
    wireOf (a ++ b) = wireOf a ++ wireOf b := by
  induction a with
  | nil => simp [wireOf]
  | cons e rest ih => simp [wireOf, ih, String.append_assoc]

theorem sendEvent_ended (res : Res) (n : String) (d : Json)
    (h : res.writableEnded = true) : sendEvent res n d = res := by
  simp [sendEvent, h]

theorem sendEvent_open (res : Res) (n : String) (d : Json)
    (h : res.writableEnded = false) :
    sendEvent res n d =
      { res with out := res.out ++ eventWire n d,
                 events := res.events ++ [(n, d)] } := by
  simp [sendEvent, h]

theorem foldl_sendLog_open (logs : List LogEntry) (res : Res)
    (h : res.writableEnded = false) :
    List.foldl (fun r l => sendEvent r logName (logPayload l)) res logs =
      { res with out := res.out ++ wireOf (logEventsOf logs),
                 events := res.events ++ logEventsOf logs } := by
  induction logs generalizing res with
  | nil => simp [logEventsOf, wireOf]
  | cons l rest ih =>
      rw [List.foldl_cons, sendEvent_open res _ _ h, ih _ (by simp [h])]
      simp [logEventsOf, wireOf, String.append_assoc]

theorem onQueueUpdate_open (res : Res) (u : QueueUpdate)
    (h : res.writableEnded = false) :
    onQueueUpdate res u =
      { res with out := res.out ++ wireOf (updateBlock u),
                 events := res.events ++ updateBlock u } := by
  obtain ⟨st, lg⟩ := u
  by_cases hs : st == inProgressStatus
  · cases lg with
    | none =>
        simp [onQueueUpdate, updateBlock, hs, wireOf, sendEvent_open res _ _ h]
    | some logs =>
        simp only [onQueueUpdate, updateBlock, hs, if_true]
        rw [sendEvent_open res _ _ h]
        rw [foldl_sendLog_open logs _ (by simp [h])]
        simp [logEventsOf, wireOf, String.append_assoc]
  · simp [onQueueUpdate, updateBlock, hs, wireOf, sendEvent_open res _ _ h]

theorem foldl_onQueueUpdate_open (us : List QueueUpdate) (res : Res)
    (h : res.writableEnded = false) :
    List.foldl onQueueUpdate res us =
      { res with out := res.out ++ wireOf (blocksOf us),
                 events := res.events ++ blocksOf us } := by
  induction us generalizing res with
  | nil => simp [blocksOf, wireOf]
  | cons u rest ih =>
      rw [List.foldl_cons, onQueueUpdate_open res u h, ih _ (by simp [h])]
      simp [blocksOf, wireOf_append, String.append_assoc]

theorem closeConn_open (res : Res) (h : res.writableEnded = false) :
    closeConn res = resEnd res := by
  simp [closeConn, h]

theorem closeConn_ended (res : Res) (h : res.writableEnded = true) :
    closeConn res = res := by
  simp [closeConn, h]

theorem closeConn_idem (res : Res) :
    closeConn (closeConn res) = closeConn res := by
  by_cases h : res.writableEnded
  · simp [closeConn, h]
  · simp [closeConn, resEnd, h]

/-- Final state of a terminal `sendEvent` followed by the `finally`
close, starting from an open connection after the progress callbacks. -/
theorem finishSend (res1 : Res) (h : res1.writableEnded = false)
    (us : List QueueUpdate) (n : String) (d : Json) :
    closeConn (sendEvent (List.foldl onQueueUpdate res1 us) n d) =
      { res1 with
        writableEnded := true,
        out := res1.out ++ wireOf (blocksOf us) ++ eventWire n d,
        events := res1.events ++ blocksOf us ++ [(n, d)],
        endCalls := res1.endCalls + 1 } := by
  rw [foldl_onQueueUpdate_open us res1 h]
  rw [sendEvent_open _ _ _ (by simp [h])]
  rw [closeConn_open _ (by simp [h])]
  simp [resEnd, String.append_assoc]

/-- Final state of an early error event followed by a close. -/
theorem errFinish (res1 : Res) (h : res1.writableEnded = false) (d : Json) :
    resEnd (sendEvent res1 errorName d) =
      { res1 with
        writableEnded := true,
        out := res1.out ++ eventWire errorName d,
        events := res1.events ++ [(errorName, d)],
        endCalls := res1.endCalls + 1 } := by
  rw [sendEvent_open res1 _ _ h]
  simp [resEnd]

theorem errFinishClose (res1 : Res) (h : res1.writableEnded = false) (d : Json) :
    closeConn (sendEvent res1 errorName d) =
      { res1 with
        writableEnded := true,
        out := res1.out ++ eventWire errorName d,
        events := res1.events ++ [(errorName, d)],
        endCalls := res1.endCalls + 1 } := by
  rw [sendEvent_open res1 _ _ h, closeConn_open _ (by simp [h])]
  simp [resEnd]

theorem tsSetup_start :
    tsSetup Res.start =
      { writableEnded := false,
        headers := [("Access-Control-Allow-Origin", "*"),
                    ("Content-Type", "text/event-stream"),
                    ("Cache-Control", "no-cache"),
                    ("Connection", "keep-alive")],
        headersFlushed := true, out := "", events := [], endCalls := 0 } := rfl

theorem jsSetup_start :
    jsSetup Res.start =
      { writableEnded := false,
        headers := [("Access-Control-Allow-Origin", "*"),
                    ("Access-Control-Allow-Methods", "GET"),
                    ("Content-Type", "text/event-stream"),
                    ("Cache-Control", "no-cache"),
                    ("Connection", "keep-alive")],
        headersFlushed := true, out := "", events := [], endCalls := 0 } := rfl

theorem updateBlock_not_terminal (u : QueueUpdate) :
    ∀ e ∈ updateBlock u, isTerminalName e.1 = false := by
  intro e he
  unfold updateBlock at he
  rcases List.mem_cons.mp he with h1 | h2
  · subst h1
    show isTerminalName statusName = false
    decide
  · by_cases hs : u.status == inProgressStatus
    · simp only [hs, if_true] at h2
      cases hl : u.logs with
      | none => rw [hl] at h2; simp at h2
      | some logs =>
          rw [hl] at h2
          rcases List.mem_map.mp h2 with ⟨l, _, hel⟩
          subst hel
          show isTerminalName logName = false
          decide
    · simp [hs] at h2

theorem terminalCount_append (a b : List (String × Json)) :
    terminalCount (a ++ b) = terminalCount a + terminalCount b := by
  simp [terminalCount, List.filter_append]

theorem terminalCount_blocks (us : List QueueUpdate) :
    terminalCount (blocksOf us) = 0 := by
  unfold terminalCount
  rw [List.length_eq_zero, List.filter_eq_nil_iff]
  intro e he
  rcases List.mem_flatMap.mp he with ⟨u, _, heu⟩
  simp [updateBlock_not_terminal u e heu]

/-- The falsiness test of the prompt parameter: absent or empty. -/
def promptFalsy (req : Request) : Bool :=
  match req.get promptKey with
  | none => true
  | some p => p == ""

/-- The headers set by `proxy.ts` and `part_003`. -/
def tsHeaders : List (String × String) :=
  [("Access-Control-Allow-Origin", "*"),
   ("Content-Type", "text/event-stream"),
   ("Cache-Control", "no-cache"),
   ("Connection", "keep-alive")]

/-- The headers set by `proxy.js`. -/
def jsHeaders : List (String × String) :=
  [("Access-Control-Allow-Origin", "*"),
   ("Access-Control-Allow-Methods", "GET"),
   ("Content-Type", "text/event-stream"),
   ("Cache-Control", "no-cache"),
   ("Connection", "keep-alive")]

/-- `part_003` and `proxy.ts` are the same program: their embeddings
agree definitionally. -/
theorem handlerP3_eq_handlerTs (env : Env) (hf : Bool) (up : Upstream)
    (req : Request) (res0 : Res) :
    handlerP3 env hf up req res0 = handlerTs env hf up req res0 := rfl

theorem handlerTs_keyMissing (env : Env) (up : Upstream) (req : Request)
    (hk : env.keyOk = false) :
    handlerTs env false up req Res.start =
      Except.ok ⟨{ writableEnded := true, headers := tsHeaders,
                   headersFlushed := true,
                   out := eventWire errorName (tsErrorPayload tsKeyErrMsg),
                   events := [(errorName, tsErrorPayload tsKeyErrMsg)],
                   endCalls := 1 }, []⟩ := by
  unfold handlerTs
  simp only [Bool.false_eq_true, if_false, hk, Bool.not_false, if_true, tsSetup_start]
  rw [errFinishClose _ rfl]
  dsimp only
  simp only [tsHeaders, String.empty_append, List.nil_append, Nat.zero_add]

theorem handlerTs_promptMissing (env : Env) (up : Upstream) (req : Request)
    (hk : env.keyOk = true) (hp : promptFalsy req = true) :
    handlerTs env false up req Res.start =
      Except.ok ⟨{ writableEnded := true, headers := tsHeaders,
                   headersFlushed := true,
                   out := eventWire errorName (tsErrorPayload tsPromptErrMsg),
                   events := [(errorName, tsErrorPayload tsPromptErrMsg)],
                   endCalls := 1 }, []⟩ := by
  unfold handlerTs
  cases hget : req.get promptKey with
  | none =>
      simp only [Bool.false_eq_true, if_false, hk, Bool.not_true, hget, tsSetup_start]
      rw [errFinishClose _ rfl]
      dsimp only
      simp only [tsHeaders, String.empty_append, List.nil_append, Nat.zero_add]
  | some p =>
      simp only [promptFalsy, hget] at hp
      simp only [Bool.false_eq_true, if_false, hk, Bool.not_true, hget, hp, if_true,
        tsSetup_start]
      rw [errFinishClose _ rfl]
      dsimp only
      simp only [tsHeaders, String.empty_append, List.nil_append, Nat.zero_add]

theorem handlerTs_resolve (env : Env) (up : Upstream) (req : Request)
    (p : String) (payload : Json)
    (hk : env.keyOk = true) (hp : req.get promptKey = some p)
    (hpe : (p == "") = false) (ho : up.outcome = Except.ok payload) :
    handlerTs env false up req Res.start =
      Except.ok ⟨{ writableEnded := true, headers := tsHeaders,
                   headersFlushed := true,
                   out := wireOf (blocksOf up.updates) ++ eventWire resultName payload,
                   events := blocksOf up.updates ++ [(resultName, payload)],
                   endCalls := 1 },
                 [processInput p (req.rest promptKey)]⟩ := by
  unfold handlerTs
  simp only [Bool.false_eq_true, if_false, hk, Bool.not_true, hp, hpe, ho,
    tsSetup_start]
  rw [finishSend _ rfl]
  dsimp only
  simp only [tsHeaders, String.empty_append, List.nil_append, Nat.zero_add]

theorem handlerTs_reject (env : Env) (up : Upstream) (req : Request)
    (p : String) (msg : String)
    (hk : env.keyOk = true) (hp : req.get promptKey = some p)
    (hpe : (p == "") = false) (ho : up.outcome = Except.error msg) :
    handlerTs env false up req Res.start =
      Except.ok ⟨{ writableEnded := true, headers := tsHeaders,
                   headersFlushed := true,
                   out := wireOf (blocksOf up.updates) ++ eventWire errorName (tsErrorPayload msg),
                   events := blocksOf up.updates ++ [(errorName, tsErrorPayload msg)],
                   endCalls := 1 },
                 [processInput p (req.rest promptKey)]⟩ := by
  unfold handlerTs
  simp only [Bool.false_eq_true, if_false, hk, Bool.not_true, hp, hpe, ho,
    tsSetup_start]
  rw [finishSend _ rfl]
  dsimp only
  simp only [tsHeaders, String.empty_append, List.nil_append, Nat.zero_add]

theorem handlerJs_keyMissing (env : Env) (up : Upstream) (req : Request)
    (hk : env.keyOk = false) :
    handlerJs env false up req Res.start =
      Except.ok ⟨{ writableEnded := true, headers := jsHeaders,
                   headersFlushed := true,
                   out := eventWire errorName jsKeyErrPayload,
                   events := [(errorName, jsKeyErrPayload)],
                   endCalls := 1 }, []⟩ := by
  unfold handlerJs
  simp only [Bool.false_eq_true, if_false, hk, Bool.not_false, if_true, jsSetup_start]
  rw [errFinish _ rfl]
  dsimp only
  simp only [jsHeaders, String.empty_append, List.nil_append, Nat.zero_add]

theorem handlerJs_promptMissing (env : Env) (up : Upstream) (req : Request)
    (hk : env.keyOk = true) (hp : promptFalsy req = true) :
    handlerJs env false up req Res.start =
      Except.ok ⟨{ writableEnded := true, headers := jsHeaders,
                   headersFlushed := true,
                   out := eventWire errorName jsPromptErrPayload,
                   events := [(errorName, jsPromptErrPayload)],
                   endCalls := 1 }, []⟩ := by
  unfold handlerJs
  cases hget : req.get promptKey with
  | none =>
      simp only [Bool.false_eq_true, if_false, hk, Bool.not_true, hget, jsSetup_start]
      rw [errFinish _ rfl]
      dsimp only
      simp only [jsHeaders, String.empty_append, List.nil_append, Nat.zero_add]
  | some p =>
      simp only [promptFalsy, hget] at hp
      simp only [Bool.false_eq_true, if_false, hk, Bool.not_true, hget, hp, if_true,
        jsSetup_start]
      rw [errFinish _ rfl]
      dsimp only
      simp only [jsHeaders, String.empty_append, List.nil_append, Nat.zero_add]

theorem handlerJs_resolve (env : Env) (up : Upstream) (req : Request)
    (p : String) (payload : Json)
    (hk : env.keyOk = true) (hp : req.get promptKey = some p)
    (hpe : (p == "") = false) (ho : up.outcome = Except.ok payload) :
    handlerJs env false up req Res.start =
      Except.ok ⟨{ writableEnded := true, headers := jsHeaders,
                   headersFlushed := true,
                   out := wireOf (blocksOf up.updates) ++ eventWire resultName payload,
                   events := blocksOf up.updates ++ [(resultName, payload)],
                   endCalls := 1 },
                 [processInput p (req.rest promptKey)]⟩ := by
  unfold handlerJs
  simp only [Bool.false_eq_true, if_false, hk, Bool.not_true, hp, hpe, ho,
    jsSetup_start]
  rw [finishSend _ rfl]
  dsimp only
  simp only [jsHeaders, String.empty_append, List.nil_append, Nat.zero_add]

theorem handlerJs_reject (env : Env) (up : Upstream) (req : Request)
    (p : String) (msg : String)
    (hk : env.keyOk = true) (hp : req.get promptKey = some p)
    (hpe : (p == "") = false) (ho : up.outcome = Except.error msg) :
    handlerJs env false up req Res.start =
      Except.ok ⟨{ writableEnded := true, headers := jsHeaders,
                   headersFlushed := true,
                   out := wireOf (blocksOf up.updates) ++ eventWire errorName (jsCatchPayload msg),
                   events := blocksOf up.updates ++ [(errorName, jsCatchPayload msg)],
                   endCalls := 1 },
                 [processInput p (req.rest promptKey)]⟩ := by
  unfold handlerJs
  simp only [Bool.false_eq_true, if_false, hk, Bool.not_true, hp, hpe, ho,
    jsSetup_start]
  rw [finishSend _ rfl]
  dsimp only
  simp only [jsHeaders, String.empty_append, List.nil_append, Nat.zero_add]

deriving instance DecidableEq for Json

deriving instance DecidableEq for Res

theorem isTerminalName_error : isTerminalName errorName = true := by decide

theorem isTerminalName_result : isTerminalName resultName = true := by decide

theorem terminalCount_single (n : String) (d : Json) (hn : isTerminalName n = true) :
    terminalCount [(n, d)] = 1 := by
  simp [terminalCount, List.filter, hn]

theorem terminalCount_term_last (pre : List (String × Json)) (n : String) (d : Json)
    (hn : isTerminalName n = true) (hpre : terminalCount pre = 0) :
    terminalCount (pre ++ [(n, d)]) = 1 := by
  rw [terminalCount_append, hpre, terminalCount_single n d hn]

/-- The `proxy.ts` run when header setup itself faults: the fault is
thrown inside the `try`, so the catch block still emits one `error`
event and the `finally` block closes the connection. -/
theorem handlerTs_headerFault (env : Env) (up : Upstream) (req : Request) :
    handlerTs env true up req Res.start =
      Except.ok ⟨{ writableEnded := true, headers := [],
                   headersFlushed := false,
                   out := eventWire errorName (tsErrorPayload headerFaultMsg),
                   events := [(errorName, tsErrorPayload headerFaultMsg)],
                   endCalls := 1 }, []⟩ := by
  unfold handlerTs
  rw [if_pos rfl, errFinishClose _ rfl]
  simp only [Res.start, String.empty_append, List.nil_append, Nat.zero_add]

theorem onQueueUpdate_ended (res : Res) (u : QueueUpdate)
    (h : res.writableEnded = true) : onQueueUpdate res u = res := by
  unfold onQueueUpdate
  rw [sendEvent_ended res _ _ h]
  have hlog : ∀ logs : List LogEntry,
      List.foldl (fun r l => sendEvent r logName (logPayload l)) res logs = res := by
    intro logs
    induction logs with
    | nil => rfl
    | cons l rest ih => rw [List.foldl_cons, sendEvent_ended res _ _ h, ih]
  by_cases hs : u.status == inProgressStatus
  · simp only [hs, if_true]
    cases u.logs with
    | none => rfl
    | some logs => exact hlog logs
  · simp [hs]

theorem foldl_onQueueUpdate_ended (res : Res) (us : List QueueUpdate)
    (h : res.writableEnded = true) : List.foldl onQueueUpdate res us = res := by
  induction us with
  | nil => rfl
  | cons u rest ih => rw [List.foldl_cons, onQueueUpdate_ended res u h, ih]

theorem lookupField_setField_same (input : List (String × JsValue))
    (k : String) (v : JsValue) :
    lookupField (setField input k v) k = some v := by
  induction input with
  | nil => simp [setField, lookupField, List.find?]
  | cons e rest ih =>
      obtain ⟨k0, v0⟩ := e
      by_cases he : k0 == k
      · simp [setField, he, lookupField, List.find?]
      · simp only [setField, he, if_false, Bool.false_eq_true]
        simp only [lookupField, List.find?, he] at ih ⊢
        exact ih

theorem lookupField_setField_ne (input : List (String × JsValue))
    (k1 k2 : String) (v : JsValue) (h : (k1 == k2) = false) :
    lookupField (setField input k1 v) k2 = lookupField input k2 := by
  induction input with
  | nil => simp [setField, lookupField, List.find?, h]
  | cons e rest ih =>
      obtain ⟨k0, v0⟩ := e
      by_cases he : k0 == k1
      · have hk0 : k0 = k1 := beq_iff_eq.mp he
        subst hk0
        simp [setField, lookupField, List.find?, h]
      · simp only [setField, he, if_false, Bool.false_eq_true]
        by_cases h2 : k0 == k2
        · simp [lookupField, List.find?, h2]
        · simp only [lookupField, List.find?, h2] at ih ⊢
          exact ih

theorem coerceNumField_other (input : List (String × JsValue))
    (k1 k2 : String) (h : (k1 == k2) = false) :
    lookupField (coerceNumField input k1) k2 = lookupField input k2 := by
  unfold coerceNumField
  cases hl : lookupField input k1 with
  | none => rfl
  | some v =>
      by_cases ht : jsTruthy v
      · simp [ht, lookupField_setField_ne _ _ _ _ h]
      · simp [ht]

theorem coerceNumField_hit (input : List (String × JsValue))
    (k : String) (s : String)
    (hl : lookupField input k = some (JsValue.str s)) (hs : (s == "") = false) :
    coerceNumField input k = setField input k (parseInt10 s) := by
  unfold coerceNumField
  rw [hl]
  simp [jsTruthy, hs, jsToString]

theorem find_keep (q : List (String × String)) (bad good : String)
    (h : (good == bad) = false) :
    (q.filter (fun e => !(e.1 == bad))).find? (fun e => e.1 == good) =
      q.find? (fun e => e.1 == good) := by
  induction q with
  | nil => rfl
  | cons e rest ih =>
      by_cases hb : e.1 == bad
      · have he1 : e.1 = bad := beq_iff_eq.mp hb
        have hg : (e.1 == good) = false := by
          rw [he1]
          cases hgb : bad == good
          · rfl
          · exfalso
            have hbg : bad = good := beq_iff_eq.mp hgb
            rw [hbg] at h
            simp at h
        simp [List.filter_cons, hb, List.find?, hg, ih]
      · by_cases hg : e.1 == good
        · simp [List.filter_cons, hb, List.find?, hg]
        · simp [List.filter_cons, hb, List.find?, hg, ih]

theorem find_map_str (rest : List (String × String)) (k : String) :
    (rest.map (fun e => (e.1, JsValue.str e.2))).find? (fun e => e.1 == k) =
      (rest.find? (fun e => e.1 == k)).map (fun e => (e.1, JsValue.str e.2)) := by
  induction rest with
  | nil => rfl
  | cons e rest ih =>
      by_cases hg : e.1 == k
      · simp [List.find?, hg]
      · simp [List.find?, hg, ih]

theorem lookupField_buildInput (p : String) (rest : List (String × String))
    (k : String) (hk : (promptKey == k) = false) :
    lookupField (buildInput p rest) k =
      (rest.find? (fun e => e.1 == k)).map (fun e => JsValue.str e.2) := by
  unfold buildInput lookupField
  simp only [List.find?, hk]
  rw [find_map_str]
  cases rest.find? (fun e => e.1 == k) <;> simp

/-- When the request carries a non-empty `seed` whose `parseInt` is
`NaN`, the payload built for the upstream call carries
`seed = NaN`: the field is neither dropped nor rejected. -/
theorem processInput_seed_nan (req : Request) (p s : String)
    (hs : req.get seedKey = some s) (hse : (s == "") = false)
    (hnan : parseInt10 s = JsValue.nan) :
    lookupField (processInput p (req.rest promptKey)) seedKey = some JsValue.nan := by
  have hfind : ∃ e, req.query.find? (fun x => x.1 == seedKey) = some e ∧ e.2 = s := by
    unfold Request.get at hs
    cases hq : req.query.find? (fun x => x.1 == seedKey) with
    | none => rw [hq] at hs; cases hs
    | some e =>
        rw [hq] at hs
        exact ⟨e, rfl, by simpa using hs⟩
  have h1 : lookupField (buildInput p (req.rest promptKey)) seedKey
      = some (JsValue.str s) := by
    rw [lookupField_buildInput _ _ _ (by decide)]
    unfold Request.rest
    rw [find_keep _ promptKey seedKey (by decide)]
    obtain ⟨e, he, he2⟩ := hfind
    rw [he]
    simp [he2]
  unfold processInput
  rw [coerceNumField_other _ numImagesKey seedKey (by decide)]
  rw [coerceNumField_hit _ _ _ h1 hse, hnan]
  exact lookupField_setField_same _ _ _

/-- When the request carries a non-empty `num_images` whose `parseInt`
is `NaN`, the payload built for the upstream call carries
`num_images = NaN`: the field is neither dropped nor rejected. -/
theorem processInput_numImages_nan (req : Request) (p s : String)
    (hs : req.get numImagesKey = some s) (hse : (s == "") = false)
    (hnan : parseInt10 s = JsValue.nan) :
    lookupField (processInput p (req.rest promptKey)) numImagesKey =
      some JsValue.nan := by
  have hfind : ∃ e, req.query.find? (fun x => x.1 == numImagesKey) = some e ∧
      e.2 = s := by
    unfold Request.get at hs
    cases hq : req.query.find? (fun x => x.1 == numImagesKey) with
    | none => rw [hq] at hs; cases hs
    | some e =>
        rw [hq] at hs
        exact ⟨e, rfl, by simpa using hs⟩
  have h1 : lookupField (buildInput p (req.rest promptKey)) numImagesKey
      = some (JsValue.str s) := by
    rw [lookupField_buildInput _ _ _ (by decide)]
    unfold Request.rest
    rw [find_keep _ promptKey numImagesKey (by decide)]
    obtain ⟨e, he, he2⟩ := hfind
    rw [he]
    simp [he2]
  have h2 : lookupField (coerceNumField (buildInput p (req.rest promptKey)) seedKey)
      numImagesKey = some (JsValue.str s) := by
    rw [coerceNumField_other _ seedKey numImagesKey (by decide)]
    exact h1
  unfold processInput
  rw [coerceNumField_hit _ _ _ h2 hse, hnan]
  exact lookupField_setField_same _ _ _

theorem eventNames_append (a b : List (String × Json)) :
    eventNames (a ++ b) = eventNames a ++ eventNames b := by
  simp [eventNames]

/-- Shape of every `proxy.ts` run (any credential state, any prompt,
any upstream behaviour, header setup faulting or not): the handler
returns normally, the trace carries exactly one terminal event which is
the last event, the connection is closed exactly once, and closing
again is a no-op. -/
theorem tsRunShape (env : Env) (hf : Bool) (up : Upstream) (req : Request) :
    ∃ r, handlerTs env hf up req Res.start = Except.ok r ∧
      terminalCount r.res.events = 1 ∧
      (∃ e, r.res.events.getLast? = some e ∧ isTerminalName e.1 = true) ∧
      r.res.endCalls = 1 ∧
      closeConn r.res = r.res := by
  cases hf with
  | true =>
      refine ⟨_, handlerTs_headerFault env up req, ?_, ?_, ?_, ?_⟩
      · exact terminalCount_single _ _ isTerminalName_error
      · exact ⟨_, rfl, isTerminalName_error⟩
      · rfl
      · exact closeConn_ended _ rfl
  | false =>
      cases hk : env.keyOk with
      | false =>
          refine ⟨_, handlerTs_keyMissing env up req hk, ?_, ?_, ?_, ?_⟩
          · exact terminalCount_single _ _ isTerminalName_error
          · exact ⟨_, rfl, isTerminalName_error⟩
          · rfl
          · exact closeConn_ended _ rfl
      | true =>
          cases hget : req.get promptKey with
          | none =>
              have hp : promptFalsy req = true := by simp [promptFalsy, hget]
              refine ⟨_, handlerTs_promptMissing env up req hk hp, ?_, ?_, ?_, ?_⟩
              · exact terminalCount_single _ _ isTerminalName_error
              · exact ⟨_, rfl, isTerminalName_error⟩
              · rfl
              · exact closeConn_ended _ rfl
          | some p =>
              cases hpe : p == "" with
              | true =>
                  have hp : promptFalsy req = true := by simp [promptFalsy, hget, hpe]
                  refine ⟨_, handlerTs_promptMissing env up req hk hp, ?_, ?_, ?_, ?_⟩
                  · exact terminalCount_single _ _ isTerminalName_error
                  · exact ⟨_, rfl, isTerminalName_error⟩
                  · rfl
                  · exact closeConn_ended _ rfl
              | false =>
                  cases ho : up.outcome with
                  | ok payload =>
                      refine ⟨_, handlerTs_resolve env up req p payload hk hget hpe ho,
                        ?_, ?_, ?_, ?_⟩
                      · exact terminalCount_term_last _ _ _ isTerminalName_result
                          (terminalCount_blocks _)
                      · exact ⟨_, List.getLast?_concat _, isTerminalName_result⟩
                      · rfl
                      · exact closeConn_ended _ rfl
                  | error msg =>
                      refine ⟨_, handlerTs_reject env up req p msg hk hget hpe ho,
                        ?_, ?_, ?_, ?_⟩
                      · exact terminalCount_term_last _ _ _ isTerminalName_error
                          (terminalCount_blocks _)
                      · exact ⟨_, List.getLast?_concat _, isTerminalName_error⟩
                      · rfl
                      · exact closeConn_ended _ rfl

/-- Shape of every `proxy.js` run with its header setup succeeding. -/
theorem jsRunShape (env : Env) (up : Upstream) (req : Request) :
    ∃ r, handlerJs env false up req Res.start = Except.ok r ∧
      terminalCount r.res.events = 1 ∧
      (∃ e, r.res.events.getLast? = some e ∧ isTerminalName e.1 = true) ∧
      r.res.endCalls = 1 ∧
      closeConn r.res = r.res := by
  cases hk : env.keyOk with
  | false =>
      refine ⟨_, handlerJs_keyMissing env up req hk, ?_, ?_, ?_, ?_⟩
      · exact terminalCount_single _ _ isTerminalName_error
      · exact ⟨_, rfl, isTerminalName_error⟩
      · rfl
      · exact closeConn_ended _ rfl
  | true =>
      cases hget : req.get promptKey with
      | none =>
          have hp : promptFalsy req = true := by simp [promptFalsy, hget]
          refine ⟨_, handlerJs_promptMissing env up req hk hp, ?_, ?_, ?_, ?_⟩
          · exact terminalCount_single _ _ isTerminalName_error
          · exact ⟨_, rfl, isTerminalName_error⟩
          · rfl
          · exact closeConn_ended _ rfl
      | some p =>
          cases hpe : p == "" with
          | true =>
              have hp : promptFalsy req = true := by simp [promptFalsy, hget, hpe]
              refine ⟨_, handlerJs_promptMissing env up req hk hp, ?_, ?_, ?_, ?_⟩
              · exact terminalCount_single _ _ isTerminalName_error
              · exact ⟨_, rfl, isTerminalName_error⟩
              · rfl
              · exact closeConn_ended _ rfl
          | false =>
              cases ho : up.outcome with
              | ok payload =>
                  refine ⟨_, handlerJs_resolve env up req p payload hk hget hpe ho,
                    ?_, ?_, ?_, ?_⟩
                  · exact terminalCount_term_last _ _ _ isTerminalName_result
                      (terminalCount_blocks _)
                  · exact ⟨_, List.getLast?_concat _, isTerminalName_result⟩
                  · rfl
                  · exact closeConn_ended _ rfl
              | error msg =>
                  refine ⟨_, handlerJs_reject env up req p msg hk hget hpe ho,
                    ?_, ?_, ?_, ?_⟩
                  · exact terminalCount_term_last _ _ _ isTerminalName_error
                      (terminalCount_blocks _)
                  · exact ⟨_, List.getLast?_concat _, isTerminalName_error⟩
                  · rfl
                  · exact closeConn_ended _ rfl

/-- A concrete upstream behaviour used by the witnesses: one plain
status update, one in-progress update with a log line, then a resolved
result payload. -/
def upW : Upstream :=
  { updates := [{ status := "IN_QUEUE", logs := none },
                { status := "IN_PROGRESS", logs := some [{ message := "w1" }] }],
    outcome := Except.ok (jobj1 ("data") (Json.str ("u"))) }

/-- A concrete valid request used by the witnesses. -/
def reqW : Request :=
  { query := [("prompt", "red dragon")] }

/-- A concrete request with no `prompt` parameter. -/
def reqNoPromptW : Request :=
  { query := [("image_size", "square_hd")] }

/-- A concrete environment holding a credential. -/
def envW : Env := { falKey := some ("k") }

/-- A concrete environment with no credential. -/
def envNoKeyW : Env := { falKey := none }

/-- Claim C1: on every path with a live connection (success, upstream
fault, missing credential, missing prompt), each of the three handler
variants returns normally with exactly one terminal event (`result`
xor `error`) as the last event of its trace, closes the connection
exactly once, and running the close logic a second time is a no-op. -/
theorem claimC1 (env : Env) (up : Upstream) (req : Request) :
    (∃ r, handlerTs env false up req Res.start = Except.ok r ∧
       terminalCount r.res.events = 1 ∧
       (∃ e, r.res.events.getLast? = some e ∧ isTerminalName e.1 = true) ∧
       r.res.endCalls = 1 ∧ closeConn r.res = r.res) ∧
    (∃ r, handlerJs env false up req Res.start = Except.ok r ∧
       terminalCount r.res.events = 1 ∧
       (∃ e, r.res.events.getLast? = some e ∧ isTerminalName e.1 = true) ∧
       r.res.endCalls = 1 ∧ closeConn r.res = r.res) ∧
    (∃ r, handlerP3 env false up req Res.start = Except.ok r ∧
       terminalCount r.res.events = 1 ∧
       (∃ e, r.res.events.getLast? = some e ∧ isTerminalName e.1 = true) ∧
       r.res.endCalls = 1 ∧ closeConn r.res = r.res) := by
  refine ⟨tsRunShape env false up req, jsRunShape env up req, ?_⟩
  rw [handlerP3_eq_handlerTs]
  exact tsRunShape env false up req

/-- Counterexample to claim C2 as stated: in `proxy.js` the header
setup runs outside the `try`/`catch`, so a fault during header setup
escapes the handler instead of being converted into an `error` event. -/
theorem claimC2_cex :
    handlerJs envW true upW reqW Res.start = Except.error headerFaultMsg := rfl

/-- Claim C2 (amended): in `proxy.ts` every failure — header setup
included — is caught at the handler boundary and converted into a
single terminal event with exactly one close (a header-setup fault in
particular yields one `error` event); in `proxy.js` the same holds for
every failure other than a header-setup fault, which escapes. -/
theorem claimC2_amended :
    (∀ (env : Env) (hf : Bool) (up : Upstream) (req : Request),
       ∃ r, handlerTs env hf up req Res.start = Except.ok r ∧
         terminalCount r.res.events = 1 ∧ r.res.endCalls = 1) ∧
    (∀ (env : Env) (up : Upstream) (req : Request),
       ∃ r, handlerTs env true up req Res.start = Except.ok r ∧
         r.res.events = [(errorName, tsErrorPayload headerFaultMsg)]) ∧
    (∀ (env : Env) (up : Upstream) (req : Request),
       ∃ r, handlerJs env false up req Res.start = Except.ok r ∧
         terminalCount r.res.events = 1 ∧ r.res.endCalls = 1) := by
  refine ⟨?_, ?_, ?_⟩
  · intro env hf up req
    obtain ⟨r, h1, h2, _, h4, _⟩ := tsRunShape env hf up req
    exact ⟨r, h1, h2, h4⟩
  · intro env up req
    exact ⟨_, handlerTs_headerFault env up req, rfl⟩
  · intro env up req
    obtain ⟨r, h1, h2, _, h4, _⟩ := jsRunShape env up req
    exact ⟨r, h1, h2, h4⟩

/-- Claim C3: whenever the `prompt` query parameter is absent or
empty, `proxy.ts` and `proxy.js` emit a single `error` event, make
zero upstream calls, and close the connection. -/
theorem claimC3 (env : Env) (up : Upstream) (req : Request)
    (hp : promptFalsy req = true) :
    (∃ r, handlerTs env false up req Res.start = Except.ok r ∧
       r.calls = [] ∧ (∃ d, r.res.events = [(errorName, d)]) ∧
       r.res.endCalls = 1) ∧
    (∃ r, handlerJs env false up req Res.start = Except.ok r ∧
       r.calls = [] ∧ (∃ d, r.res.events = [(errorName, d)]) ∧
       r.res.endCalls = 1) := by
  cases hk : env.keyOk with
  | false =>
      exact ⟨⟨_, handlerTs_keyMissing env up req hk, rfl, ⟨_, rfl⟩, rfl⟩,
             ⟨_, handlerJs_keyMissing env up req hk, rfl, ⟨_, rfl⟩, rfl⟩⟩
  | true =>
      exact ⟨⟨_, handlerTs_promptMissing env up req hk hp, rfl, ⟨_, rfl⟩, rfl⟩,
             ⟨_, handlerJs_promptMissing env up req hk hp, rfl, ⟨_, rfl⟩, rfl⟩⟩

theorem claimC3_witness :
    promptFalsy reqNoPromptW = true ∧
    ((∃ r, handlerTs envW false upW reqNoPromptW Res.start = Except.ok r ∧
        r.calls = [] ∧ (∃ d, r.res.events = [(errorName, d)]) ∧
        r.res.endCalls = 1) ∧
     (∃ r, handlerJs envW false upW reqNoPromptW Res.start = Except.ok r ∧
        r.calls = [] ∧ (∃ d, r.res.events = [(errorName, d)]) ∧
        r.res.endCalls = 1)) :=
  ⟨by decide, claimC3 envW upW reqNoPromptW (by decide)⟩

/-- Claim C4: with the `FAL_KEY` credential absent from the
environment, both variants return normally (no crash), emit exactly
one `error` event, make zero upstream calls, and close the
connection. -/
theorem claimC4 (up : Upstream) (req : Request) :
    (∃ r, handlerTs { falKey := none } false up req Res.start = Except.ok r ∧
       r.res.events = [(errorName, tsErrorPayload tsKeyErrMsg)] ∧
       r.calls = [] ∧ r.res.endCalls = 1 ∧ r.res.writableEnded = true) ∧
    (∃ r, handlerJs { falKey := none } false up req Res.start = Except.ok r ∧
       r.res.events = [(errorName, jsKeyErrPayload)] ∧
       r.calls = [] ∧ r.res.endCalls = 1 ∧ r.res.writableEnded = true) :=
  ⟨⟨_, handlerTs_keyMissing _ up req rfl, rfl, rfl, rfl, rfl⟩,
   ⟨_, handlerJs_keyMissing _ up req rfl, rfl, rfl, rfl, rfl⟩⟩

/-- Claim C5: on an open connection, each firing of the progress
callback emits exactly one `status` event, followed — when and only
when the status is `IN_PROGRESS` and the update carries logs — by one
`log` event per log line in upstream order; and successive updates
contribute their blocks in sequence, so the `log` events of an update
sit after its `status` event and before the next one. -/
theorem claimC5 :
    (∀ (hs : List (String × String)) (fl : Bool) (o : String)
        (evs : List (String × Json)) (ec : Nat) (u : QueueUpdate),
       (onQueueUpdate ⟨false, hs, fl, o, evs, ec⟩ u).events =
         evs ++ ((statusName, statusPayload u.status) ::
           (match u.logs with
            | some logs =>
                if u.status == inProgressStatus then
                  logs.map (fun l => (logName, logPayload l))
                else []
            | none => []))) ∧
    (∀ (hs : List (String × String)) (fl : Bool) (o : String)
        (evs : List (String × Json)) (ec : Nat) (us : List QueueUpdate),
       (List.foldl onQueueUpdate ⟨false, hs, fl, o, evs, ec⟩ us).events =
         evs ++ us.flatMap updateBlock) := by
  constructor
  · intro hs fl o evs ec u
    rw [onQueueUpdate_open _ _ rfl]
    dsimp only
    congr 1
    unfold updateBlock
    cases hl : u.logs with
    | none => simp
    | some logs =>
        by_cases hst : u.status == inProgressStatus
        · simp [hst]
        · simp [hst]
  · intro hs fl o evs ec us
    rw [foldl_onQueueUpdate_open _ _ rfl]
    rfl

/-- Claim C6: once the connection-already-closed signal is set (the
client disconnected or the stream already ended), every subsequent
write attempt is silently suppressed — `sendEvent` and whole runs of
the progress callback leave the state untouched and raise nothing —
and the close path is a no-op that closes nothing twice. -/
theorem claimC6 (hs : List (String × String)) (fl : Bool) (o : String)
    (evs : List (String × Json)) (ec : Nat) :
    (∀ (n : String) (d : Json),
       sendEvent ⟨true, hs, fl, o, evs, ec⟩ n d = ⟨true, hs, fl, o, evs, ec⟩) ∧
    (∀ us : List QueueUpdate,
       List.foldl onQueueUpdate ⟨true, hs, fl, o, evs, ec⟩ us =
         ⟨true, hs, fl, o, evs, ec⟩) ∧
    closeConn ⟨true, hs, fl, o, evs, ec⟩ = ⟨true, hs, fl, o, evs, ec⟩ ∧
    closeConn (closeConn ⟨true, hs, fl, o, evs, ec⟩) =
      closeConn ⟨true, hs, fl, o, evs, ec⟩ :=
  ⟨fun n d => sendEvent_ended _ n d rfl,
   fun us => foldl_onQueueUpdate_ended _ us rfl,
   closeConn_ended _ rfl,
   closeConn_idem _⟩

/-- Claim C7: when the upstream subscription resolves, the terminal
event of the `proxy.ts` run is `result` carrying exactly the upstream
payload, and the bytes written for it are the standard framing around
the JSON encoding of that very payload — nothing added, removed or
transformed. -/
theorem claimC7 (env : Env) (up : Upstream) (req : Request) (p : String)
    (payload : Json)
    (hk : env.keyOk = true) (hp : req.get promptKey = some p)
    (hpe : (p == "") = false) (ho : up.outcome = Except.ok payload) :
    ∃ r pre, handlerTs env false up req Res.start = Except.ok r ∧
      r.res.events.getLast? = some (resultName, payload) ∧
      r.res.out = pre ++ "event: " ++ resultName ++ "\n" ++ "data: " ++
        Json.stringify payload ++ "\n\n" := by
  refine ⟨_, wireOf (blocksOf up.updates),
    handlerTs_resolve env up req p payload hk hp hpe ho, ?_, ?_⟩
  · exact List.getLast?_concat _
  · dsimp only
    simp [eventWire, String.append_assoc]

theorem claimC7_witness :
    envW.keyOk = true ∧ reqW.get promptKey = some ("red dragon") ∧
    (("red dragon" == "") = false) ∧
    upW.outcome = Except.ok (jobj1 ("data") (Json.str ("u"))) ∧
    (∃ r pre, handlerTs envW false upW reqW Res.start = Except.ok r ∧
       r.res.events.getLast? =
         some (resultName, jobj1 ("data") (Json.str ("u"))) ∧
       r.res.out = pre ++ "event: " ++ resultName ++ "\n" ++ "data: " ++
         Json.stringify (jobj1 ("data") (Json.str ("u"))) ++ "\n\n") :=
  ⟨rfl, rfl, by decide, rfl,
   claimC7 envW upW reqW ("red dragon") (jobj1 ("data") (Json.str ("u")))
     rfl rfl (by decide) rfl⟩

/-- The request of the C8 counterexample: a valid prompt plus a `seed`
that `parseInt` cannot parse. -/
def c8req : Request := { query := [("prompt", "x"), ("seed", "abc")] }

/-- The upstream behaviour of the C8 counterexample: no progress
updates, immediate resolution. -/
def c8up : Upstream := { updates := [], outcome := Except.ok Json.null }

/-- Counterexample to claim C8 as stated: with `seed=abc` the
`proxy.ts` handler neither fails the request with an `error` event nor
drops the field — the upstream call receives `seed = NaN` (a
non-integer value) and the run ends with a plain `result` event. -/
theorem claimC8_cex :
    (handlerTs envW false c8up c8req Res.start).map HResult.calls =
      Except.ok [[(promptKey, JsValue.str ("x")), (seedKey, JsValue.nan)]] ∧
    (handlerTs envW false c8up c8req Res.start).map
        (fun r => eventNames r.res.events) =
      Except.ok [resultName] :=
  ⟨rfl, rfl⟩

/-- The request of the C8 `num_images` witness: a valid prompt plus a
`num_images` that `parseInt` cannot parse. -/
def c8reqN : Request := { query := [("prompt", "x"), ("num_images", "abc")] }

/-- Claim C8 (amended): when `seed` — or, symmetrically, `num_images`
— is present, non-empty and not parseable as a base-10 integer, the
handler still does not crash (it returns normally), but the field is
neither dropped nor reported as an `InvalidParameter` error: the
coercion stores `parseInt`'s `NaN` and the payload sent upstream
carries that field with value `NaN`.  This holds for both `proxy.ts`
and `proxy.js`. -/
theorem claimC8_amended :
    (∀ (env : Env) (up : Upstream) (req : Request) (p s : String),
       env.keyOk = true → req.get promptKey = some p → (p == "") = false →
       req.get seedKey = some s → (s == "") = false →
       parseInt10 s = JsValue.nan →
       (∃ r, handlerTs env false up req Res.start = Except.ok r ∧
          r.calls = [processInput p (req.rest promptKey)] ∧
          lookupField (processInput p (req.rest promptKey)) seedKey =
            some JsValue.nan) ∧
       (∃ r, handlerJs env false up req Res.start = Except.ok r ∧
          r.calls = [processInput p (req.rest promptKey)] ∧
          lookupField (processInput p (req.rest promptKey)) seedKey =
            some JsValue.nan)) ∧
    (∀ (env : Env) (up : Upstream) (req : Request) (p s : String),
       env.keyOk = true → req.get promptKey = some p → (p == "") = false →
       req.get numImagesKey = some s → (s == "") = false →
       parseInt10 s = JsValue.nan →
       (∃ r, handlerTs env false up req Res.start = Except.ok r ∧
          r.calls = [processInput p (req.rest promptKey)] ∧
          lookupField (processInput p (req.rest promptKey)) numImagesKey =
            some JsValue.nan) ∧
       (∃ r, handlerJs env false up req Res.start = Except.ok r ∧
          r.calls = [processInput p (req.rest promptKey)] ∧
          lookupField (processInput p (req.rest promptKey)) numImagesKey =
            some JsValue.nan)) := by
  constructor
  · intro env up req p s hk hp hpe hs hse hnan
    have hseed := processInput_seed_nan req p s hs hse hnan
    cases ho : up.outcome with
    | ok payload =>
        exact ⟨⟨_, handlerTs_resolve env up req p payload hk hp hpe ho, rfl, hseed⟩,
               ⟨_, handlerJs_resolve env up req p payload hk hp hpe ho, rfl, hseed⟩⟩
    | error msg =>
        exact ⟨⟨_, handlerTs_reject env up req p msg hk hp hpe ho, rfl, hseed⟩,
               ⟨_, handlerJs_reject env up req p msg hk hp hpe ho, rfl, hseed⟩⟩
  · intro env up req p s hk hp hpe hs hse hnan
    have hni := processInput_numImages_nan req p s hs hse hnan
    cases ho : up.outcome with
    | ok payload =>
        exact ⟨⟨_, handlerTs_resolve env up req p payload hk hp hpe ho, rfl, hni⟩,
               ⟨_, handlerJs_resolve env up req p payload hk hp hpe ho, rfl, hni⟩⟩
    | error msg =>
        exact ⟨⟨_, handlerTs_reject env up req p msg hk hp hpe ho, rfl, hni⟩,
               ⟨_, handlerJs_reject env up req p msg hk hp hpe ho, rfl, hni⟩⟩

theorem claimC8_witness :
    (envW.keyOk = true ∧ c8req.get promptKey = some ("x") ∧
     (("x" == "") = false) ∧ c8req.get seedKey = some ("abc") ∧
     (("abc" == "") = false) ∧ parseInt10 ("abc") = JsValue.nan ∧
     ((∃ r, handlerTs envW false c8up c8req Res.start = Except.ok r ∧
         r.calls = [processInput ("x") (c8req.rest promptKey)] ∧
         lookupField (processInput ("x") (c8req.rest promptKey)) seedKey =
           some JsValue.nan) ∧
      (∃ r, handlerJs envW false c8up c8req Res.start = Except.ok r ∧
         r.calls = [processInput ("x") (c8req.rest promptKey)] ∧
         lookupField (processInput ("x") (c8req.rest promptKey)) seedKey =
           some JsValue.nan))) ∧
    (envW.keyOk = true ∧ c8reqN.get promptKey = some ("x") ∧
     (("x" == "") = false) ∧ c8reqN.get numImagesKey = some ("abc") ∧
     (("abc" == "") = false) ∧ parseInt10 ("abc") = JsValue.nan ∧
     ((∃ r, handlerTs envW false c8up c8reqN Res.start = Except.ok r ∧
         r.calls = [processInput ("x") (c8reqN.rest promptKey)] ∧
         lookupField (processInput ("x") (c8reqN.rest promptKey)) numImagesKey =
           some JsValue.nan) ∧
      (∃ r, handlerJs envW false c8up c8reqN Res.start = Except.ok r ∧
         r.calls = [processInput ("x") (c8reqN.rest promptKey)] ∧
         lookupField (processInput ("x") (c8reqN.rest promptKey)) numImagesKey =
           some JsValue.nan))) :=
  ⟨⟨rfl, rfl, by decide, rfl, by decide, by decide,
    claimC8_amended.1 envW c8up c8req ("x") ("abc") rfl rfl (by decide) rfl
      (by decide) (by decide)⟩,
   ⟨rfl, rfl, by decide, rfl, by decide, by decide,
    claimC8_amended.2 envW c8up c8reqN ("x") ("abc") rfl rfl (by decide) rfl
      (by decide) (by decide)⟩⟩

/-- Claim C9: the credential check precedes prompt validation — when
both the credential and the prompt are missing, the single `error`
event carries the missing-credential payload and never the
missing-prompt payload; conversely a missing-prompt `error` event can
only appear in a run whose environment holds the credential. -/
theorem claimC9 :
    (∀ (env : Env) (up : Upstream) (req : Request),
       env.keyOk = false → promptFalsy req = true →
       (∃ r, handlerTs env false up req Res.start = Except.ok r ∧
          r.res.events = [(errorName, tsErrorPayload tsKeyErrMsg)] ∧
          (errorName, tsErrorPayload tsPromptErrMsg) ∉ r.res.events) ∧
       (∃ r, handlerJs env false up req Res.start = Except.ok r ∧
          r.res.events = [(errorName, jsKeyErrPayload)] ∧
          (errorName, jsPromptErrPayload) ∉ r.res.events)) ∧
    (∀ (env : Env) (up : Upstream) (req : Request) (r : HResult),
       handlerTs env false up req Res.start = Except.ok r →
       (errorName, tsErrorPayload tsPromptErrMsg) ∈ r.res.events →
       env.keyOk = true) ∧
    (∀ (env : Env) (up : Upstream) (req : Request) (r : HResult),
       handlerJs env false up req Res.start = Except.ok r →
       (errorName, jsPromptErrPayload) ∈ r.res.events →
       env.keyOk = true) := by
  refine ⟨?_, ?_, ?_⟩
  · intro env up req hk _
    refine ⟨⟨_, handlerTs_keyMissing env up req hk, rfl, ?_⟩,
            ⟨_, handlerJs_keyMissing env up req hk, rfl, ?_⟩⟩
    · intro hmem
      rw [List.mem_singleton] at hmem
      exact absurd (congrArg Prod.snd hmem) (by decide)
    · intro hmem
      rw [List.mem_singleton] at hmem
      exact absurd (congrArg Prod.snd hmem) (by decide)
  · intro env up req r hrun hmem
    cases hk : env.keyOk with
    | true => rfl
    | false =>
        rw [handlerTs_keyMissing env up req hk] at hrun
        injection hrun with h
        rw [← h] at hmem
        rw [List.mem_singleton] at hmem
        exact absurd (congrArg Prod.snd hmem) (by decide)
  · intro env up req r hrun hmem
    cases hk : env.keyOk with
    | true => rfl
    | false =>
        rw [handlerJs_keyMissing env up req hk] at hrun
        injection hrun with h
        rw [← h] at hmem
        rw [List.mem_singleton] at hmem
        exact absurd (congrArg Prod.snd hmem) (by decide)

theorem claimC9_witness :
    envNoKeyW.keyOk = false ∧ promptFalsy reqNoPromptW = true ∧
    ((∃ r, handlerTs envNoKeyW false upW reqNoPromptW Res.start = Except.ok r ∧
        r.res.events = [(errorName, tsErrorPayload tsKeyErrMsg)] ∧
        (errorName, tsErrorPayload tsPromptErrMsg) ∉ r.res.events) ∧
     (∃ r, handlerJs envNoKeyW false upW reqNoPromptW Res.start = Except.ok r ∧
        r.res.events = [(errorName, jsKeyErrPayload)] ∧
        (errorName, jsPromptErrPayload) ∉ r.res.events)) :=
  ⟨rfl, by decide, claimC9.1 envNoKeyW upW reqNoPromptW rfl (by decide)⟩

/-- Claim C10: the three handler variants are trace-equivalent at the
event-name level — for every environment, request and upstream
behaviour (header setup succeeding) they emit the same sequence of
event names and each closes the connection exactly once; only the
textual content of `error` payloads differs. -/
theorem claimC10 (env : Env) (up : Upstream) (req : Request) :
    ∃ r1 r2 r3,
      handlerTs env false up req Res.start = Except.ok r1 ∧
      handlerJs env false up req Res.start = Except.ok r2 ∧
      handlerP3 env false up req Res.start = Except.ok r3 ∧
      eventNames r1.res.events = eventNames r2.res.events ∧
      eventNames r1.res.events = eventNames r3.res.events ∧
      r1.res.endCalls = 1 ∧ r2.res.endCalls = 1 ∧ r3.res.endCalls = 1 := by
  cases hk : env.keyOk with
  | false =>
      exact ⟨_, _, _, handlerTs_keyMissing env up req hk,
        handlerJs_keyMissing env up req hk,
        by rw [handlerP3_eq_handlerTs]; exact handlerTs_keyMissing env up req hk,
        rfl, rfl, rfl, rfl, rfl⟩
  | true =>
      cases hget : req.get promptKey with
      | none =>
          have hp : promptFalsy req = true := by simp [promptFalsy, hget]
          exact ⟨_, _, _, handlerTs_promptMissing env up req hk hp,
            handlerJs_promptMissing env up req hk hp,
            by rw [handlerP3_eq_handlerTs]
               exact handlerTs_promptMissing env up req hk hp,
            rfl, rfl, rfl, rfl, rfl⟩
      | some p =>
          cases hpe : p == "" with
          | true =>
              have hp : promptFalsy req = true := by simp [promptFalsy, hget, hpe]
              exact ⟨_, _, _, handlerTs_promptMissing env up req hk hp,
                handlerJs_promptMissing env up req hk hp,
                by rw [handlerP3_eq_handlerTs]
                   exact handlerTs_promptMissing env up req hk hp,
                rfl, rfl, rfl, rfl, rfl⟩
          | false =>
              cases ho : up.outcome with
              | ok payload =>
                  exact ⟨_, _, _,
                    handlerTs_resolve env up req p payload hk hget hpe ho,
                    handlerJs_resolve env up req p payload hk hget hpe ho,
                    by rw [handlerP3_eq_handlerTs]
                       exact handlerTs_resolve env up req p payload hk hget hpe ho,
                    rfl, rfl, rfl, rfl, rfl⟩
              | error msg =>
                  refine ⟨_, _, _,
                    handlerTs_reject env up req p msg hk hget hpe ho,
                    handlerJs_reject env up req p msg hk hget hpe ho,
                    by rw [handlerP3_eq_handlerTs]
                       exact handlerTs_reject env up req p msg hk hget hpe ho,
                    ?_, ?_, rfl, rfl, rfl⟩
                  · simp [eventNames]
                  · rfl
